import Mathlib

/-!
Shallow embedding of src/agent.py (BlueCast surf forecast agent).

The session state is a Python dict from string keys to values; the tool
functions read it through dict.get and write it through dict assignment.
External effects (geopy geocoding, the Open-Meteo marine HTTP endpoint) are
modelled as oracle functions passed to the tools, and each tool additionally
returns the list of external requests it issued, so that attempt counts are
observable.  Fallible code (the attribute access on a possibly absent geocode
result) is modelled with Except.
-/

namespace BlueCast

/-- Python values that appear in the ADK session state and in tool result
dictionaries: the literal None, strings, and booleans. -/
inductive Value where
  | vNone : Value
  | vStr : String → Value
  | vBool : Bool → Value
  deriving DecidableEq, Repr

/-- The ADK session state: an insertion-ordered dictionary from string keys
to Python values, modelled as an association list without duplicate keys. -/
abbrev State := List (String × Value)

/-- Dictionary key lookup: some value when the key is present, none when it
is absent.  Presence of a key bound to None is distinguishable from absence
here, exactly as for the Python operator in. -/
def stateLookup : State → String → Option Value
  | [], _ => none
  | kv :: rest, k => if kv.1 == k then some kv.2 else stateLookup rest k

/-- Python dict.get(k): the stored value, or None when the key is absent.
A key explicitly bound to None and an absent key are indistinguishable
through this accessor. -/
def pyGet (st : State) (k : String) : Value :=
  (stateLookup st k).getD Value.vNone

/-- Python dict assignment state[k] = v: overwrite the binding of k in
place when present, otherwise append a new binding at the end, preserving
insertion order. -/
def stateSet : State → String → Value → State
  | [], k, v => [(k, v)]
  | kv :: rest, k, v =>
      if kv.1 == k then (k, v) :: rest else kv :: stateSet rest k v

/-- The result dictionary of check_preferences_complete. -/
structure CheckResult where
  complete : Bool
  missing : List String
  collected : List (String × Value)
  deriving DecidableEq, Repr

/-- Embeds check_preferences_complete (src/agent.py, lines 45 to 60): builds
the required dict from the user-prefixed state keys, collects the keys whose
value is None into missing, and reports complete when missing is empty. -/
def check_preferences_complete (st : State) : CheckResult :=
  let required : List (String × Value) :=
    [("wave_height", pyGet st "user:wave_height"),
     ("experience_level", pyGet st "user:experience_level")]
  let missing := (required.filter (fun kv => kv.2 == Value.vNone)).map Prod.fst
  { complete := missing.length == 0
  , missing := missing
  , collected := required.filter (fun kv => !(kv.2 == Value.vNone)) }

/-- The invocation of check_preferences_complete through its ToolContext:
the function body only reads tool_context.state, so the state component of
the invocation is the input state unchanged. -/
def check_preferences_complete_call (st : State) : CheckResult × State :=
  (check_preferences_complete st, st)

/-- Embeds save_wave_height (src/agent.py, lines 62 to 70): writes the
user-prefixed wave height key and returns the confirmation dictionary,
whose keys are action, value and message. -/
def save_wave_height (height : String) (st : State) :
    List (String × Value) × State :=
  ([("action", Value.vStr "save_wave_height"),
    ("value", Value.vStr height),
    ("message", Value.vStr ("Saved wave height: " ++ height))],
   stateSet st "user:wave_height" (Value.vStr height))

/-- Embeds save_experience_level (src/agent.py, lines 72 to 80): writes the
user-prefixed experience level key and returns the confirmation dictionary,
whose keys are action, value and message (the message preserves the typo of
the source). -/
def save_experience_level (level : String) (st : State) :
    List (String × Value) × State :=
  ([("action", Value.vStr "save_experience_level"),
    ("value", Value.vStr level),
    ("message", Value.vStr ("Saved level of experiencie: " ++ level))],
   stateSet st "user:experience_level" (Value.vStr level))

/-- The three state-touching tool operations exposed by the preferences
agent, as invocable actions on a session state. -/
inductive ToolOp where
  | saveWaveHeight (height : String)
  | saveExperienceLevel (level : String)
  | checkPreferencesComplete
  deriving DecidableEq, Repr

/-- The effect of one tool invocation on the session state. -/
def applyOp (st : State) : ToolOp → State
  | ToolOp.saveWaveHeight h => (save_wave_height h st).2
  | ToolOp.saveExperienceLevel l => (save_experience_level l st).2
  | ToolOp.checkPreferencesComplete => (check_preferences_complete_call st).2

/-- The effect of a sequence of tool invocations on the session state. -/
def applyOps (st : State) (ops : List ToolOp) : State :=
  ops.foldl applyOp st

/-- A geopy geocode match: the location object whose latitude, longitude and
address fields the tool reads. -/
structure GeoLocation where
  latitude : ℚ
  longitude : ℚ
  address : String
  deriving DecidableEq, Repr

/-- The coordinates dictionary returned by get_coordinates_tool. -/
structure Coordinates where
  latitude : ℚ
  longitude : ℚ
  place : String
  deriving DecidableEq, Repr

/-- Embeds get_coordinates_tool (src/agent.py, lines 82 to 90).  The geopy
call geolocator.geocode(user_location) is the oracle argument; it returns
none when the lookup finds no match, in which case the Python body evaluates
location.latitude on None and raises AttributeError, modelled as
Except.error.  The second component lists the geocode calls issued. -/
def get_coordinates_tool (geocode : String → Option GeoLocation)
    (user_location : String) : Except String Coordinates × List String :=
  match geocode user_location with
  | none =>
      (Except.error "AttributeError: NoneType object has no attribute latitude",
       [user_location])
  | some location =>
      (Except.ok
        { latitude := location.latitude
        , longitude := location.longitude
        , place := location.address },
       [user_location])

/-- The HTTP request issued by get_marine_forecast_tool: the URL together
with the params dict. -/
structure MarineRequest where
  url : String
  latitude : ℚ
  longitude : ℚ
  hourly : String
  forecast_days : ℕ
  deriving DecidableEq, Repr

/-- An HTTP response as seen by the tool: a status code and the payload that
response.json() parses out of the body. -/
structure MarineResponse (Body : Type) where
  status : ℕ
  json : Body

/-- Embeds get_marine_forecast_tool (src/agent.py, lines 92 to 106): builds
the fixed request params, issues one requests.get through the HTTP oracle,
and returns the parsed response payload unmodified.  The second component
lists the HTTP requests issued. -/
def get_marine_forecast_tool (Body : Type)
    (http : MarineRequest → MarineResponse Body)
    (latitude longitude : ℚ) : Body × List MarineRequest :=
  let params : MarineRequest :=
    { url := "https://marine-api.open-meteo.com/v1/marine"
    , latitude := latitude
    , longitude := longitude
    , hourly := "wave_height,wave_direction,wave_period"
    , forecast_days := 3 }
  let response := http params
  (response.json, [params])

/-- Wave height interpretation table of the SurfCoachAgent instruction
(src/agent.py, lines 211 to 216), with the band labels of the design:
0.3 to 0.8 m small/beginner, 0.8 to 1.5 m medium/intermediate, 1.5 to 2.5 m
large/advanced, above 2.5 m very large/expert-only. -/
def classifyWaveHeight (h : ℚ) : Option String :=
  if 0.3 ≤ h ∧ h < 0.8 then some "small/beginner"
  else if 0.8 ≤ h ∧ h < 1.5 then some "medium/intermediate"
  else if 1.5 ≤ h ∧ h < 2.5 then some "large/advanced"
  else if 2.5 ≤ h then some "very large/expert-only"
  else none

/-- Wave period interpretation table of the SurfCoachAgent instruction
(src/agent.py, lines 218 to 223): below 6 s choppy, 6 to 10 s good, 10 to
14 s excellent, above 14 s very long/powerful. -/
def classifyWavePeriod (p : ℚ) : String :=
  if p < 6 then "choppy"
  else if p < 10 then "good"
  else if p < 14 then "excellent"
  else "very long/powerful"

/-- Wave direction compass anchors of the SurfCoachAgent instruction
(src/agent.py, lines 225 to 230): 0 or 360 degrees North, 90 East, 180
South, 270 West. -/
def classifyWaveDirection (d : ℚ) : Option String :=
  if d = 0 ∨ d = 360 then some "North"
  else if d = 90 then some "East"
  else if d = 180 then some "South"
  else if d = 270 then some "West"
  else none

/-- The explicit initial session state passed to create_session in main
(src/agent.py, lines 295 to 304): wave_height and experience_level bound to
None, preferences_complete bound to False. -/
def bootstrapState : State :=
  [("wave_height", Value.vNone),
   ("experience_level", Value.vNone),
   ("preferences_complete", Value.vBool false)]

/-! ## Helper lemmas about the state dictionary and the tool operations -/

/-- Lookup after assignment: the assigned key reads back the new value and
every other key is untouched. -/
theorem stateLookup_stateSet (st : State) (k k' : String) (v : Value) :
    stateLookup (stateSet st k v) k' =
      if k' = k then some v else stateLookup st k' := by
  induction st with
  | nil =>
      by_cases h : k' = k <;>
        simp [stateSet, stateLookup, h, Ne.symm]
  | cons kv rest ih =>
      by_cases h1 : kv.1 = k
      · by_cases h2 : k' = k <;>
          simp [stateSet, stateLookup, h1, h2, Ne.symm]
      · by_cases h2 : k' = k
        · subst h2
          simp [stateSet, stateLookup, h1, ih, Ne.symm h1]
        · simp [stateSet, stateLookup, h1, h2, ih]

/-- dict.get after assignment. -/
theorem pyGet_stateSet (st : State) (k k' : String) (v : Value) :
    pyGet (stateSet st k v) k' = if k' = k then v else pyGet st k' := by
  by_cases h : k' = k <;> simp [pyGet, stateLookup_stateSet, h]

/-- A single tool invocation does not touch any key other than the two
user-prefixed preference keys. -/
theorem stateLookup_applyOp (st : State) (op : ToolOp) (k : String)
    (h1 : k ≠ "user:wave_height") (h2 : k ≠ "user:experience_level") :
    stateLookup (applyOp st op) k = stateLookup st k := by
  cases op <;>
    simp [applyOp, save_wave_height, save_experience_level,
      check_preferences_complete_call, stateLookup_stateSet, h1, h2]

/-- A sequence of tool invocations does not touch any key other than the two
user-prefixed preference keys. -/
theorem stateLookup_applyOps (ops : List ToolOp) (st : State) (k : String)
    (h1 : k ≠ "user:wave_height") (h2 : k ≠ "user:experience_level") :
    stateLookup (applyOps st ops) k = stateLookup st k := by
  induction ops generalizing st with
  | nil => rfl
  | cons op rest ih =>
      calc stateLookup (applyOps (applyOp st op) rest) k
          = stateLookup (applyOp st op) k := ih (applyOp st op)
        _ = stateLookup st k := stateLookup_applyOp st op k h1 h2

/-- A single tool invocation never makes a non-null key null: each save
writes a string value and the completeness check writes nothing. -/
theorem pyGet_applyOp_ne_vNone (st : State) (op : ToolOp) (k : String)
    (h : pyGet st k ≠ Value.vNone) :
    pyGet (applyOp st op) k ≠ Value.vNone := by
  cases op with
  | saveWaveHeight hgt =>
      by_cases hk : k = "user:wave_height" <;>
        simp [applyOp, save_wave_height, pyGet_stateSet, hk, h]
  | saveExperienceLevel lvl =>
      by_cases hk : k = "user:experience_level" <;>
        simp [applyOp, save_experience_level, pyGet_stateSet, hk, h]
  | checkPreferencesComplete => exact h

/-- A sequence of tool invocations never makes a non-null key null. -/
theorem pyGet_applyOps_ne_vNone (ops : List ToolOp) (st : State) (k : String)
    (h : pyGet st k ≠ Value.vNone) :
    pyGet (applyOps st ops) k ≠ Value.vNone := by
  induction ops generalizing st with
  | nil => exact h
  | cons op rest ih => exact ih (applyOp st op) (pyGet_applyOp_ne_vNone st op k h)

/-! ## Claim theorems -/

/-- Claim C1, counterexample: in a state where user:wave_height and
user:experience_level are non-null but wave_type is null/absent,
check_preferences_complete still reports complete = true, refuting the claim
that complete requires all three of wave_height, wave_type and
experience_level to be non-null. -/
theorem C1_wave_type_not_required :
    (check_preferences_complete
      [("user:wave_height", Value.vStr "1-2m"),
       ("user:experience_level", Value.vStr "intermediate")]).complete = true ∧
    pyGet
      [("user:wave_height", Value.vStr "1-2m"),
       ("user:experience_level", Value.vStr "intermediate")]
      "user:wave_type" = Value.vNone := by
  constructor <;> rfl

/-- Claim C1, amended: check_preferences_complete reports complete = true if
and only if the two keys it actually checks, user:wave_height and
user:experience_level, are both non-null, and missing lists exactly the
null/absent ones among those two (wave_type is never consulted). -/
theorem C1_required_two_fields (st : State) :
    ((check_preferences_complete st).complete = true ↔
      (pyGet st "user:wave_height" ≠ Value.vNone ∧
       pyGet st "user:experience_level" ≠ Value.vNone)) ∧
    (check_preferences_complete st).missing =
      ((if pyGet st "user:wave_height" = Value.vNone
          then ["wave_height"] else []) ++
       (if pyGet st "user:experience_level" = Value.vNone
          then ["experience_level"] else [])) := by
  by_cases h1 : pyGet st "user:wave_height" = Value.vNone <;>
    by_cases h2 : pyGet st "user:experience_level" = Value.vNone <;>
      simp [check_preferences_complete, h1, h2]

/-- Claim C2, counterexample: with an HTTP oracle that always answers
status 503, get_marine_forecast_tool issues exactly one request, not the
five attempts the claim requires. -/
theorem C2_single_attempt_on_503 :
    (get_marine_forecast_tool Unit (fun _ => ⟨503, ()⟩) 0 0).2.length = 1 ∧
    (get_marine_forecast_tool Unit (fun _ => ⟨503, ()⟩) 0 0).2.length ≠ 5 := by
  constructor
  · rfl
  · intro h
    simp [get_marine_forecast_tool] at h

/-- Claim C2, amended: no retry policy exists in the code; each of
get_coordinates_tool and get_marine_forecast_tool performs exactly one
underlying external call per invocation, for every oracle and input,
regardless of the response status. -/
theorem C2_no_retry_single_call (geocode : String → Option GeoLocation)
    (loc : String) (Body : Type) (http : MarineRequest → MarineResponse Body)
    (lat lon : ℚ) :
    (get_coordinates_tool geocode loc).2.length = 1 ∧
    (get_marine_forecast_tool Body http lat lon).2.length = 1 := by
  constructor
  · cases h : geocode loc <;> simp [get_coordinates_tool, h]
  · rfl

/-- Claim C3, code-bug evaluation: when the geocoder finds no match (the
oracle returns none), get_coordinates_tool does not produce a location-not-
found report; its attribute accesses on the None result raise
AttributeError, modelled as an Except.error outcome. -/
theorem C3_no_match_raises :
    (get_coordinates_tool (fun _ => none) "zzqx-unknown-place").1 =
      Except.error
        "AttributeError: NoneType object has no attribute latitude" := rfl

/-- Claim C4, counterexample: the confirmation returned by save_wave_height
has key set exactly (action, value, message); in particular it contains no
key named field, refuting the claimed key set (action, field, value). -/
theorem C4_confirmation_keys :
    ((save_wave_height "1-2m" bootstrapState).1.map Prod.fst =
      ["action", "value", "message"]) ∧
    "field" ∉ (save_wave_height "1-2m" bootstrapState).1.map Prod.fst := by
  constructor
  · rfl
  · decide

/-- Claim C4, amended: for every value and state, each save operation writes
the value to the corresponding user-prefixed persistent key and returns a
structured confirmation whose keys are exactly action, value and message,
with action naming the operation and value echoing the saved value. -/
theorem C4_save_writes_and_confirms (v : String) (st : State) :
    (pyGet (save_wave_height v st).2 "user:wave_height" = Value.vStr v ∧
     (save_wave_height v st).1.map Prod.fst = ["action", "value", "message"] ∧
     stateLookup (save_wave_height v st).1 "action" =
       some (Value.vStr "save_wave_height") ∧
     stateLookup (save_wave_height v st).1 "value" = some (Value.vStr v)) ∧
    (pyGet (save_experience_level v st).2 "user:experience_level" =
       Value.vStr v ∧
     (save_experience_level v st).1.map Prod.fst =
       ["action", "value", "message"] ∧
     stateLookup (save_experience_level v st).1 "action" =
       some (Value.vStr "save_experience_level") ∧
     stateLookup (save_experience_level v st).1 "value" =
       some (Value.vStr v)) := by
  refine ⟨⟨?_, rfl, rfl, rfl⟩, ⟨?_, rfl, rfl, rfl⟩⟩ <;>
    simp [save_wave_height, save_experience_level, pyGet_stateSet]

/-- Claim C5: check_preferences_complete is pure; invoking it returns the
state unchanged, and a second invocation on the resulting state returns the
identical result. -/
theorem C5_check_is_pure (st : State) :
    (check_preferences_complete_call st).2 = st ∧
    (check_preferences_complete_call
        ((check_preferences_complete_call st).2)).1 =
      (check_preferences_complete_call st).1 :=
  ⟨rfl, rfl⟩

/-- Claim C6: once a required preference key is non-null, no sequence of
exposed tool invocations (saves or completeness checks) ever resets it to
null. -/
theorem C6_required_fields_monotonic (st : State) (ops : List ToolOp) :
    (pyGet st "user:wave_height" ≠ Value.vNone →
      pyGet (applyOps st ops) "user:wave_height" ≠ Value.vNone) ∧
    (pyGet st "user:experience_level" ≠ Value.vNone →
      pyGet (applyOps st ops) "user:experience_level" ≠ Value.vNone) :=
  ⟨fun h => pyGet_applyOps_ne_vNone ops st _ h,
   fun h => pyGet_applyOps_ne_vNone ops st _ h⟩

/-- Witness for C6 at concrete states and operation sequences. -/
theorem C6_required_fields_monotonic_witness :
    pyGet (applyOps [("user:wave_height", Value.vStr "1-2m")]
        [ToolOp.checkPreferencesComplete,
         ToolOp.saveExperienceLevel "advanced",
         ToolOp.saveWaveHeight "2-3m"]) "user:wave_height" ≠ Value.vNone ∧
    pyGet (applyOps [("user:experience_level", Value.vStr "beginner")]
        [ToolOp.saveWaveHeight "1-2m"])
      "user:experience_level" ≠ Value.vNone :=
  ⟨(C6_required_fields_monotonic
      [("user:wave_height", Value.vStr "1-2m")]
      [ToolOp.checkPreferencesComplete,
       ToolOp.saveExperienceLevel "advanced",
       ToolOp.saveWaveHeight "2-3m"]).1 (by decide),
   (C6_required_fields_monotonic
      [("user:experience_level", Value.vStr "beginner")]
      [ToolOp.saveWaveHeight "1-2m"]).2 (by decide)⟩

/-- Claim C7, counterexample: the bootstrap snapshot does not leave
wave_height absent; the key is present, explicitly bound to None. -/
theorem C7_wave_height_present_in_bootstrap :
    stateLookup bootstrapState "wave_height" = some Value.vNone ∧
    stateLookup bootstrapState "wave_height" ≠ none := by
  constructor
  · rfl
  · decide

/-- Claim C7, amended: the session is created with an explicit initial
snapshot in which wave_height and experience_level are present and bound to
null, wave_type, wind_preference and swell_direction are absent, and
preferences_complete is false. -/
theorem C7_bootstrap_snapshot :
    stateLookup bootstrapState "wave_height" = some Value.vNone ∧
    stateLookup bootstrapState "experience_level" = some Value.vNone ∧
    stateLookup bootstrapState "preferences_complete" =
      some (Value.vBool false) ∧
    stateLookup bootstrapState "wave_type" = none ∧
    stateLookup bootstrapState "wind_preference" = none ∧
    stateLookup bootstrapState "swell_direction" = none :=
  ⟨rfl, rfl, rfl, rfl, rfl, rfl⟩

/-- Claim C8: for every latitude/longitude and every HTTP oracle,
get_marine_forecast_tool issues exactly one request, with the fixed marine
URL, hourly variables wave_height, wave_direction, wave_period, and a 3-day
horizon, and returns the parsed response payload unmodified. -/
theorem C8_marine_request_fixed (Body : Type)
    (http : MarineRequest → MarineResponse Body) (lat lon : ℚ) :
    ∃ req : MarineRequest,
      (get_marine_forecast_tool Body http lat lon).2 = [req] ∧
      req.url = "https://marine-api.open-meteo.com/v1/marine" ∧
      req.hourly = "wave_height,wave_direction,wave_period" ∧
      req.forecast_days = 3 ∧
      req.latitude = lat ∧ req.longitude = lon ∧
      (get_marine_forecast_tool Body http lat lon).1 = (http req).json :=
  ⟨_, rfl, rfl, rfl, rfl, rfl, rfl, rfl⟩

/-- Claim C9: on the bootstrap snapshot, check_preferences_complete returns
complete = false with missing = [wave_height, experience_level] and empty
collected, because the tools read and write only the user-prefixed keys;
moreover no sequence of tool invocations ever changes the unprefixed
bootstrap bindings. -/
theorem C9_fresh_session_check_and_key_separation :
    check_preferences_complete bootstrapState =
      { complete := false
      , missing := ["wave_height", "experience_level"]
      , collected := [] } ∧
    ∀ ops : List ToolOp,
      stateLookup (applyOps bootstrapState ops) "wave_height" =
        some Value.vNone ∧
      stateLookup (applyOps bootstrapState ops) "experience_level" =
        some Value.vNone ∧
      stateLookup (applyOps bootstrapState ops) "preferences_complete" =
        some (Value.vBool false) := by
  refine ⟨rfl, fun ops => ⟨?_, ?_, ?_⟩⟩ <;>
    rw [stateLookup_applyOps ops bootstrapState _ (by decide) (by decide)] <;>
      rfl

/-- Claim C10: the SurfCoach interpretation table classifies wave height
1.2 m as medium/intermediate, wave period 8 s as good, and wave direction
0 degrees as North. -/
theorem C10_band_classification :
    classifyWaveHeight 1.2 = some "medium/intermediate" ∧
    classifyWavePeriod 8 = "good" ∧
    classifyWaveDirection 0 = some "North" := by
  refine ⟨?_, ?_, ?_⟩ <;>
    norm_num [classifyWaveHeight, classifyWavePeriod, classifyWaveDirection]

end BlueCast
